import Mathlib

/-!
Registration form controller (`src/script.js`)

A shallow embedding of the `DOMContentLoaded` handler of `src/script.js`.

The page is an explicit state record `Page`.  Every handler of the script is a
function on that record:

* `updateStep`, the four navigation click handlers (`clickNav`),
* the `change` handler of the event checkboxes (`changeHandler`, `toggleBox`),
* `completeRegistration` and the click handler of the submit button
  (`submitClick`).

Conventions of the embedding.

* A `classList` is the ordered token list of the element, without repetition.
* Elements that the script reaches through a fixed id are fields of `Page`.
  What varies at run time may be missing: the checked payment radio
  (`paymentMode`), the selected department option (`deptSelectedIndex`, which
  is `-1` when no option is selected) and the `offline-message` element, which
  the script itself tests for `null`.
* `alert`, `console.error`, `fetch` and `window.location.href` are logs or
  fields of `Page`; the outcome of the network call is an input
  (`FetchOutcome`).
* `result.detail` is any JSON value (`JsValue`); line 125 tests its truthiness
  and converts it to a string, which throws for an object with an own key
  `toString`.
* An object keeps its keys in insertion order (`assign`), the order in which
  `JSON.stringify` writes them.
* The module variables `paymentId` and `orderId` are never read or written by
  the live code (the parameter of `completeRegistration` shadows the first)
  and carry no field.
-/

namespace Infest

/-! ## Class lists -/

/-- The call `classList.add(token)`. -/
def classAdd (c : List String) (token : String) : List String :=
  if token ∈ c then c else c ++ [token]

/-- The call `classList.remove(token)`. -/
def classRemove (c : List String) (token : String) : List String :=
  c.filter (fun t => t ≠ token)

/-- The call `classList.toggle(token, force)`. -/
def classToggle (c : List String) (token : String) (force : Bool) : List String :=
  if force then classAdd c token else classRemove c token

/-- The loop `list.forEach((element, index) => ...)` where the callback
replaces the element's state; `k` is the index of the head. -/
def forEachIdx {α : Type} (f : Nat → α → α) : Nat → List α → List α
  | _, [] => []
  | k, x :: xs => f k x :: forEachIdx f (k + 1) xs

/-! ## Page state -/

/-- An `input[name='selected_events[]']` checkbox. -/
structure Checkbox where
  value : String
  checked : Bool
  deriving DecidableEq, Repr

/-- An `option` of the `#department` select. -/
structure DeptOption where
  value : String
  textContent : String
  deriving DecidableEq, Repr

/-- The `#ticket-payment-status` element. -/
structure Badge where
  className : String
  innerHTML : String
  deriving DecidableEq, Repr

/-- The options object given to `new QRCode(ticketQRCode, ...)`. -/
structure QRCodeSpec where
  text : String
  width : Nat
  height : Nat
  deriving DecidableEq, Repr

/-- A value of the JSON body: a string or an array of strings. -/
inductive JsonVal where
  | str (s : String)
  | arr (xs : List String)
  deriving DecidableEq, Repr

/-- A call of `fetch`. -/
structure Request where
  url : String
  method : String
  headers : List (String × String)
  body : List (String × JsonVal)
  deriving DecidableEq, Repr

/-- The assignment `object[key] = value` on the keys of an object held in
insertion order: a key already present keeps its place, a new key goes last. -/
def assign : List (String × String) → String → String → List (String × String)
  | [], key, value => [(key, value)]
  | (k, v) :: rest, key, value =>
    if k = key then (k, value) :: rest else (k, v) :: assign rest key value

/-- The read `object[key]`; `none` is `undefined`. -/
def keyGet : List (String × String) → String → Option String
  | [], _ => none
  | (k, v) :: rest, key => if k = key then some v else keyGet rest key

/-- The object `userData`: the ten keys of the literal of lines 154-157, then
in `added` the keys assigned afterwards (`payment_id`, `payment_status`), in
insertion order. -/
structure UserData where
  name : String
  email : String
  phone : String
  whatsapp : String
  college : String
  year : String
  department : String
  events : List String
  payment_mode : String
  project_link : String
  added : List (String × String)
  deriving DecidableEq, Repr

/-- The read `userData.payment_status`. -/
def UserData.payment_status (u : UserData) : Option String :=
  keyGet u.added "payment_status"

/-- The read `userData.payment_id`. -/
def UserData.payment_id (u : UserData) : Option String :=
  keyGet u.added "payment_id"

/-- The page as the script sees it. -/
structure Page where
  /-- `document.querySelectorAll(".step")`, one class list per indicator. -/
  steps : List (List String)
  /-- `document.querySelectorAll(".form-section")`. -/
  formSections : List (List String)
  currentStep : Int
  registrationData : Option UserData
  /-- `input[name='selected_events[]']` in document order. -/
  eventBoxes : List Checkbox
  name : String
  email : String
  phone : String
  whatsapp : String
  college : String
  year : String
  projectLink : String
  /-- Value of `input[name='payment-mode']:checked`, if one is checked. -/
  paymentMode : Option String
  deptOptions : List DeptOption
  deptSelectedIndex : Int
  /-- Class list of `#registration-form`. -/
  registrationForm : List String
  /-- Class list of `#success-container`. -/
  successContainer : List String
  /-- Text of `#registration-id`. -/
  registrationID : String
  /-- Codes rendered into `#qrcode`. -/
  qrcode : List QRCodeSpec
  ticketPaymentStatus : Badge
  /-- Class list of `#offline-message` when the element exists. -/
  offlineMessage : Option (List String)
  ticketName : String
  ticketEmail : String
  ticketEvents : String
  ticketDepartment : String
  alerts : List String
  consoleErrors : List String
  requests : List Request
  /-- The address `window.location.href`. -/
  location : String
  deriving DecidableEq, Repr

/-! ## Step navigation (lines 15-66, 205-206) -/

/-- The function `updateStep(step)`. -/
def updateStep (s : Page) (step : Int) : Page :=
  { s with
    formSections :=
      forEachIdx (fun index sec => classToggle sec "hidden" (decide ((index : Int) ≠ step)))
        0 s.formSections
    steps :=
      forEachIdx (fun index stepElement =>
          classToggle (classToggle stepElement "active" (decide ((index : Int) = step)))
            "completed" (decide ((index : Int) < step)))
        0 s.steps }

/-- The four navigation buttons. -/
inductive NavButton where
  | nextStepBtn
  | nextToPaymentBtn
  | backToPersonalBtn
  | backToEventsBtn
  deriving DecidableEq, Repr

/-- Body shared by the two forward handlers (lines 35-38 and 44-47). -/
def advance (s : Page) : Page :=
  if s.currentStep < (s.formSections.length : Int) - 1 then
    updateStep { s with currentStep := s.currentStep + 1 } (s.currentStep + 1)
  else s

/-- Body shared by the two backward handlers (lines 53-56 and 62-65). -/
def retreat (s : Page) : Page :=
  if s.currentStep > 0 then
    updateStep { s with currentStep := s.currentStep - 1 } (s.currentStep - 1)
  else s

/-- The click handler of a navigation button. -/
def clickNav (s : Page) : NavButton → Page
  | .nextStepBtn => advance s
  | .nextToPaymentBtn => advance s
  | .backToPersonalBtn => retreat s
  | .backToEventsBtn => retreat s

/-- The `DOMContentLoaded` handler run on the page markup: the module
variables get their initial values and line 206 renders step 0. -/
def load (markup : Page) : Page :=
  updateStep { markup with currentStep := 0, registrationData := none } 0

/-- A sequence of navigation clicks. -/
def runNav (s : Page) (clicks : List NavButton) : Page :=
  clicks.foldl clickNav s

/-! ## Selection cap (lines 194-203) -/

/-- Assignment of `checked` on the box of index `i`. -/
def setChecked : List Checkbox → Nat → Bool → List Checkbox
  | [], _, _ => []
  | b :: bs, 0, v => { b with checked := v } :: bs
  | b :: bs, i + 1, v => b :: setChecked bs i v

/-- Length of `querySelectorAll("input[name='selected_events[]']:checked")`. -/
def checkedCount (s : Page) : Nat :=
  (s.eventBoxes.filter (fun b => b.checked)).length

/-- The text of the selection-cap alert. -/
def capAlert : String := "You can only select up to 3 events."

/-- The `change` handler, with `this` the box of index `i`. -/
def changeHandler (s : Page) (i : Nat) : Page :=
  if checkedCount s > 3 then
    { s with eventBoxes := setChecked s.eventBoxes i false, alerts := s.alerts ++ [capAlert] }
  else s

/-- A user toggle of the box of index `i`: the box flips, then its `change`
handler runs.  There is no box to toggle at an index past the list. -/
def toggleBox (s : Page) (i : Nat) : Page :=
  match s.eventBoxes[i]? with
  | none => s
  | some b => changeHandler { s with eventBoxes := setChecked s.eventBoxes i (!b.checked) } i

/-- The states after each toggle of a sequence, in order. -/
def toggleTrace : Page → List Nat → List Page
  | _, [] => []
  | s, i :: is => toggleBox s i :: toggleTrace (toggleBox s i) is

/-! ## Submission (lines 67-185) -/

/-- The address given to `fetch`. -/
def endpoint : String := "https://infest2k25registration.onrender.com/register"

/-- The address assigned to `window.location.href`. -/
def paymentUrl : String := "https://rzp.io/rzp/qE5ylHJ"

/-- A JavaScript value as `JSON.parse` yields it, or `undefined` for a
property that the body lacks.  A number is given by whether it is zero and by
its rendering `String(n)`. -/
inductive JsValue where
  | undefined
  | null
  | bool (b : Bool)
  | num (isZero : Bool) (text : String)
  | str (s : String)
  | arr (xs : List JsValue)
  | obj (kvs : List (String × JsValue))

/-- Truthiness of a value, as `||` tests it. -/
def JsValue.truthy : JsValue → Bool
  | .undefined => false
  | .null => false
  | .bool b => b
  | .num isZero _ => !isZero
  | .str s => decide (s ≠ "")
  | .arr _ => true
  | .obj _ => true

mutual
/-- The string conversion of a template literal; `none` is a `TypeError`.
An array is its elements joined by `,`.  An object from JSON renders as
`[object Object]` unless it has an own key `toString`: that value is not
callable and `Object.prototype.valueOf` returns no primitive, so the
conversion throws. -/
def JsValue.toStr : JsValue → Option String
  | .undefined => some "undefined"
  | .null => some "null"
  | .bool b => some (if b then "true" else "false")
  | .num _ text => some text
  | .str s => some s
  | .arr xs => joinElems xs
  | .obj kvs =>
    if kvs.any (fun kv => kv.1 = "toString") then none else some "[object Object]"
/-- An element inside `Array.prototype.join`: `null` and `undefined` render
as the empty string. -/
def elemStr : JsValue → Option String
  | .undefined => some ""
  | .null => some ""
  | .bool b => some (if b then "true" else "false")
  | .num _ text => some text
  | .str s => some s
  | .arr xs => joinElems xs
  | .obj kvs =>
    if kvs.any (fun kv => kv.1 = "toString") then none else some "[object Object]"
/-- The call `xs.join(",")`. -/
def joinElems : List JsValue → Option String
  | [] => some ""
  | [x] => elemStr x
  | x :: y :: rest =>
    match elemStr x, joinElems (y :: rest) with
    | some a, some b => some (a ++ "," ++ b)
    | _, _ => none
end

/-- The parsed response body: the three properties the script reads.
`status` is `none` when `result.status` is no string, `detail` is whatever
value `result.detail` holds. -/
structure RegisterResponse where
  status : Option String
  ticket_id : String
  detail : JsValue

/-- How `await fetch(...)` followed by `await response.json()` ends. -/
inductive FetchOutcome where
  /-- The promise of `fetch` rejects. -/
  | rejects
  /-- The promise of `response.json()` rejects: the body is not JSON. -/
  | notJson
  /-- The body is the JSON text `null`; reading `result.status` throws. -/
  | jsonNull
  /-- The body parses to `result`. -/
  | json (result : RegisterResponse)

/-- Truthiness of a value that is `null`/`undefined` or a string. -/
def truthy : Option String → Bool
  | none => false
  | some v => decide (v ≠ "")

/-- Lines 70-75: the keys that `completeRegistration` writes on `userData`. -/
def withPayment (userData : UserData) (paymentId : Option String) : UserData :=
  if truthy paymentId then
    { userData with
      added := assign (assign userData.added "payment_id" (paymentId.getD "")) "payment_status" "paid" }
  else
    { userData with added := assign userData.added "payment_status" "pending" }

/-- The object that `JSON.stringify(userData)` serialises: the keys in
insertion order. -/
def jsonBody (u : UserData) : List (String × JsonVal) :=
  [("name", .str u.name), ("email", .str u.email), ("phone", .str u.phone),
   ("whatsapp", .str u.whatsapp), ("college", .str u.college), ("year", .str u.year),
   ("department", .str u.department), ("events", .arr u.events),
   ("payment_mode", .str u.payment_mode), ("project_link", .str u.project_link)]
  ++ u.added.map (fun kv => (kv.1, JsonVal.str kv.2))

/-- The request of lines 78-82. -/
def registerRequest (u : UserData) : Request :=
  { url := endpoint
    method := "POST"
    headers := [("Content-Type", "application/json")]
    body := jsonBody u }

/-- The expression `deptSelect.options[deptSelect.selectedIndex]`;
`none` is `undefined`. -/
def selectedOption (s : Page) : Option DeptOption :=
  if 0 ≤ s.deptSelectedIndex then s.deptOptions[s.deptSelectedIndex.toNat]? else none

/-- The property `value` of the `#department` select. -/
def departmentValue (s : Page) : String :=
  match selectedOption s with
  | some o => o.value
  | none => ""

/-- The markup written on the badge at line 104. -/
def paidBadge : Badge :=
  { className := "ticket-status paid"
    innerHTML :=
      "<span class=\"status-icon\"></span><span class=\"status-text\">Payment Completed</span>" }

/-- Lines 102-111. -/
def updatePaymentDisplay (s : Page) (userData : UserData) : Page :=
  if userData.payment_status = some "paid" then
    { s with
      ticketPaymentStatus := paidBadge
      offlineMessage := s.offlineMessage.map (fun c => classAdd c "hidden") }
  else s

/-- Lines 88-116: the writes of the branch `result.status === "success"` that
come before the department lookup. -/
def renderTicket (s : Page) (userData : UserData) (result : RegisterResponse) : Page :=
  let s := { s with registrationForm := classAdd s.registrationForm "hidden" }
  let s := { s with successContainer := classRemove s.successContainer "hidden" }
  let s := { s with registrationID := result.ticket_id }
  let s := { s with qrcode := s.qrcode ++ [{ text := result.ticket_id, width := 160, height := 160 }] }
  let s := updatePaymentDisplay s userData
  let s := { s with ticketName := userData.name }
  let s := { s with ticketEmail := userData.email }
  { s with ticketEvents := ", ".intercalate userData.events }

/-- Lines 87-123, the branch `result.status === "success"`.  `Except.error`
carries the page at the point where an exception is thrown: with no selected
option, `selectedOption` is `undefined` and line 121 throws a `TypeError`. -/
def successBranch (s : Page) (userData : UserData) (result : RegisterResponse) :
    Except Page Page :=
  let s := renderTicket s userData result
  match selectedOption s with
  | none => .error s
  | some selected =>
    let s := { s with ticketDepartment := selected.textContent }
    .ok { s with alerts := s.alerts ++ ["Registration Successful! Check your email."] }

/-- The text that the template literal of line 125 inserts for
`result.detail || 'Could not process registration.'`; `none` is the
`TypeError` of a detail with no string conversion. -/
def detailOrFallback (detail : JsValue) : Option String :=
  (if detail.truthy then detail else JsValue.str "Could not process registration.").toStr

/-- The `try` block, lines 78-126, with `userData` already carrying its
payment keys. -/
def tryBlock (s : Page) (userData : UserData) (o : FetchOutcome) : Except Page Page :=
  let s := { s with requests := s.requests ++ [registerRequest userData] }
  match o with
  | .rejects => .error s
  | .notJson => .error s
  | .jsonNull => .error s
  | .json result =>
    if result.status = some "success" then successBranch s userData result
    else
      match detailOrFallback result.detail with
      | none => .error s
      | some text => .ok { s with alerts := s.alerts ++ ["Error: " ++ text] }

/-- The `catch` block, lines 128-129. -/
def catchBlock (s : Page) : Page :=
  { s with
    consoleErrors := s.consoleErrors ++ ["Registration Error:"]
    alerts := s.alerts ++ ["An error occurred. Please try again."] }

/-- The function `completeRegistration(userData, paymentId)`: the page once the
returned promise has settled. -/
def completeRegistration (s : Page) (userData : UserData) (paymentId : Option String)
    (o : FetchOutcome) : Page :=
  match tryBlock s (withPayment userData paymentId) o with
  | .ok s' => s'
  | .error s' => catchBlock s'

/-- Lines 137-157: the object `userData` built from the form. -/
def collect (s : Page) (paymentMode : String) : UserData :=
  { name := s.name
    email := s.email
    phone := s.phone
    whatsapp := s.whatsapp
    college := s.college
    year := s.year
    department := departmentValue s
    events := (s.eventBoxes.filter (fun b => b.checked)).map (fun b => b.value)
    payment_mode := paymentMode
    project_link := s.projectLink
    added := [] }

/-- The click handler of the submit button.  With no payment radio checked,
line 144 reads `value` of `null` and the handler ends in a `TypeError`.
`registrationData` holds the very object that `completeRegistration` then
extends, so it ends with the payment keys too. -/
def submitClick (s : Page) (o : FetchOutcome) : Except String Page :=
  match s.paymentMode with
  | none => .error "TypeError"
  | some paymentMode =>
    let userData := collect s paymentMode
    let s := { s with registrationData := some userData }
    if paymentMode = "online" then
      .ok { s with location := paymentUrl }
    else
      let s := { s with registrationData := some (withPayment userData none) }
      .ok (completeRegistration s userData none o)

/-! ## Properties stated on the model -/

/-- The render invariant: exactly one section is visible and exactly one
indicator is active, both at `currentStep`, and an indicator is completed
exactly when its index is below `currentStep`. -/
def RenderInvariant (s : Page) : Prop :=
  (∃! i : Nat, ∃ h : i < s.formSections.length, "hidden" ∉ s.formSections[i])
  ∧ (∃! j : Nat, ∃ h : j < s.steps.length, "active" ∈ s.steps[j])
  ∧ (∀ (i : Nat) (h : i < s.formSections.length),
      "hidden" ∉ s.formSections[i] ↔ (i : Int) = s.currentStep)
  ∧ (∀ (j : Nat) (h : j < s.steps.length),
      ("active" ∈ s.steps[j] ↔ (j : Int) = s.currentStep)
      ∧ ("completed" ∈ s.steps[j] ↔ (j : Int) < s.currentStep))

/-- The form and the confirmation panel are as they were: nothing of the
ticket has been written. -/
def FormUntouched (s s' : Page) : Prop :=
  s'.registrationForm = s.registrationForm
  ∧ s'.successContainer = s.successContainer
  ∧ s'.registrationID = s.registrationID
  ∧ s'.qrcode = s.qrcode
  ∧ s'.ticketPaymentStatus = s.ticketPaymentStatus
  ∧ s'.offlineMessage = s.offlineMessage
  ∧ s'.ticketName = s.ticketName
  ∧ s'.ticketEmail = s.ticketEmail
  ∧ s'.ticketEvents = s.ticketEvents
  ∧ s'.ticketDepartment = s.ticketDepartment

/-- What holds of a page with `n` sections and `m` indicators once it is
loaded: the lists keep their lengths, `currentStep` is an index of a section
and the classes are those that `updateStep currentStep` leaves. -/
def NavInv (n m : Nat) (s : Page) : Prop :=
  s.formSections.length = n
  ∧ s.steps.length = m
  ∧ 0 ≤ s.currentStep
  ∧ s.currentStep ≤ (n : Int) - 1
  ∧ (∀ (i : Nat) (h : i < s.formSections.length),
      "hidden" ∉ s.formSections[i] ↔ (i : Int) = s.currentStep)
  ∧ (∀ (j : Nat) (h : j < s.steps.length),
      ("active" ∈ s.steps[j] ↔ (j : Int) = s.currentStep)
      ∧ ("completed" ∈ s.steps[j] ↔ (j : Int) < s.currentStep))

/-- A page with empty markup, the base of the concrete examples. -/
def blankPage : Page :=
  { steps := [], formSections := [], currentStep := 0, registrationData := none,
    eventBoxes := [], name := "", email := "", phone := "", whatsapp := "", college := "",
    year := "", projectLink := "", paymentMode := none, deptOptions := [],
    deptSelectedIndex := -1, registrationForm := [], successContainer := ["hidden"],
    registrationID := "", qrcode := [], ticketPaymentStatus := ⟨"ticket-status pending", ""⟩,
    offlineMessage := none, ticketName := "", ticketEmail := "", ticketEvents := "",
    ticketDepartment := "", alerts := [], consoleErrors := [], requests := [], location := "" }

/-- A form of three sections with three indicators, as yet unrendered. -/
def threeStepPage : Page :=
  { blankPage with
    formSections := [["form-section"], ["form-section"], ["form-section"]]
    steps := [["step"], ["step"], ["step"]] }

/-- A page with four event boxes, the first three checked. -/
def fourBoxPage : Page :=
  { blankPage with
    eventBoxes := [⟨"quiz", true⟩, ⟨"coding", true⟩, ⟨"paper", true⟩, ⟨"gaming", false⟩] }

/-- A filled form with the offline payment radio checked. -/
def offlinePage : Page :=
  { blankPage with
    name := "Asha", email := "asha@example.com", phone := "9000000001",
    whatsapp := "9000000001", college := "KSRIET", year := "3",
    projectLink := "https://example.com/p",
    eventBoxes := [⟨"quiz", true⟩, ⟨"coding", false⟩, ⟨"paper", true⟩],
    paymentMode := some "offline",
    deptOptions := [⟨"cse", "Computer Science and Engineering"⟩, ⟨"it", "Information Technology"⟩],
    deptSelectedIndex := 0 }

/-- The same form with the online payment radio checked. -/
def onlinePage : Page :=
  { offlinePage with paymentMode := some "online" }

/-- The same form whose department select has no option, hence none selected. -/
def noOptionPage : Page :=
  { offlinePage with deptOptions := [], deptSelectedIndex := -1 }

/-- The same form with the department options shown as a list box in which
nothing is selected. -/
def unselectedPage : Page :=
  { offlinePage with deptSelectedIndex := -1 }

/-- The same form on a page whose markup gives the badge the paid style. -/
def paidMarkupPage : Page :=
  { offlinePage with ticketPaymentStatus := paidBadge }

/-- A validation error body: no `status`, `detail` an array of objects. -/
def validationError : RegisterResponse :=
  { status := none
    ticket_id := ""
    detail := .arr [.obj [("loc", .arr [.str "body", .str "email"]),
                          ("msg", .str "Email already used"),
                          ("type", .str "value_error")]] }

/-- A form of two sections whose markup has a single indicator. -/
def shortIndicatorPage : Page :=
  { blankPage with
    formSections := [["form-section"], ["form-section"]]
    steps := [["step"]] }


end Infest

namespace Infest

/-! ## Class lists and indexed loops -/

theorem mem_classToggle_self (c : List String) (t : String) (force : Bool) :
    t ∈ classToggle c t force ↔ force = true := by
  cases force
  · simp [classToggle, classRemove]
  · by_cases h : t ∈ c <;> simp [classToggle, classAdd, h]

theorem mem_classToggle_of_ne (c : List String) (t u : String) (force : Bool) (h : t ≠ u) :
    t ∈ classToggle c u force ↔ t ∈ c := by
  cases force
  · simp [classToggle, classRemove, h]
  · by_cases hu : u ∈ c <;> simp [classToggle, classAdd, hu, h]

theorem length_forEachIdx {α : Type} (f : Nat → α → α) (k : Nat) (l : List α) :
    (forEachIdx f k l).length = l.length := by
  induction l generalizing k with
  | nil => rfl
  | cons x xs ih => simp [forEachIdx, ih]

theorem getElem_forEachIdx {α : Type} (f : Nat → α → α) (k : Nat) (l : List α) (i : Nat)
    (h : i < l.length) (h2 : i < (forEachIdx f k l).length) :
    (forEachIdx f k l)[i] = f (k + i) l[i] := by
  induction l generalizing k i with
  | nil => simp at h
  | cons x xs ih =>
    cases i with
    | zero => simp [forEachIdx]
    | succ n =>
      simp only [forEachIdx, List.getElem_cons_succ]
      rw [ih (k + 1) n (by simpa using h)]
      congr 1
      omega

/-! ## Step navigation -/

theorem updateStep_currentStep (s : Page) (step : Int) :
    (updateStep s step).currentStep = s.currentStep := rfl

theorem updateStep_length_formSections (s : Page) (step : Int) :
    (updateStep s step).formSections.length = s.formSections.length := by
  simp [updateStep, length_forEachIdx]

theorem updateStep_length_steps (s : Page) (step : Int) :
    (updateStep s step).steps.length = s.steps.length := by
  simp [updateStep, length_forEachIdx]

theorem updateStep_hidden (s : Page) (step : Int) (i : Nat)
    (h : i < (updateStep s step).formSections.length) :
    "hidden" ∉ (updateStep s step).formSections[i] ↔ (i : Int) = step := by
  have h1 : i < s.formSections.length := by
    rw [updateStep_length_formSections] at h; exact h
  have e : (updateStep s step).formSections[i]
      = classToggle s.formSections[i] "hidden" (decide ((i : Int) ≠ step)) := by
    simp only [updateStep]
    rw [getElem_forEachIdx _ _ _ _ h1]
    simp
  rw [e, mem_classToggle_self]
  simp

theorem updateStep_indicator (s : Page) (step : Int) (j : Nat)
    (h : j < (updateStep s step).steps.length) :
    ("active" ∈ (updateStep s step).steps[j] ↔ (j : Int) = step)
    ∧ ("completed" ∈ (updateStep s step).steps[j] ↔ (j : Int) < step) := by
  have h1 : j < s.steps.length := by
    rw [updateStep_length_steps] at h; exact h
  have e : (updateStep s step).steps[j]
      = classToggle (classToggle s.steps[j] "active" (decide ((j : Int) = step)))
          "completed" (decide ((j : Int) < step)) := by
    simp only [updateStep]
    rw [getElem_forEachIdx _ _ _ _ h1]
    simp
  rw [e]
  constructor
  · rw [mem_classToggle_of_ne _ _ _ _ (by decide), mem_classToggle_self]
    simp
  · rw [mem_classToggle_self]
    simp

theorem navInv_load (markup : Page) (h : 1 ≤ markup.formSections.length) :
    NavInv markup.formSections.length markup.steps.length (load markup) := by
  refine ⟨?_, ?_, ?_, ?_, ?_, ?_⟩
  · exact updateStep_length_formSections _ _
  · exact updateStep_length_steps _ _
  · simp [load, updateStep_currentStep]
  · simp only [load, updateStep_currentStep]; omega
  · intro i hi; exact updateStep_hidden _ _ i hi
  · intro j hj; exact updateStep_indicator _ _ j hj

theorem navInv_advance (n m : Nat) (s : Page) (h : NavInv n m s) : NavInv n m (advance s) := by
  obtain ⟨h1, h2, h3, h4, h5, h6⟩ := h
  unfold advance
  split
  · next hlt =>
    refine ⟨?_, ?_, ?_, ?_, ?_, ?_⟩
    · rw [updateStep_length_formSections]; exact h1
    · rw [updateStep_length_steps]; exact h2
    · simp only [updateStep_currentStep]; omega
    · simp only [updateStep_currentStep]; omega
    · intro i hi; exact updateStep_hidden _ _ i hi
    · intro j hj; exact updateStep_indicator _ _ j hj
  · exact ⟨h1, h2, h3, h4, h5, h6⟩

theorem navInv_retreat (n m : Nat) (s : Page) (h : NavInv n m s) : NavInv n m (retreat s) := by
  obtain ⟨h1, h2, h3, h4, h5, h6⟩ := h
  unfold retreat
  split
  · next hlt =>
    refine ⟨?_, ?_, ?_, ?_, ?_, ?_⟩
    · rw [updateStep_length_formSections]; exact h1
    · rw [updateStep_length_steps]; exact h2
    · simp only [updateStep_currentStep]; omega
    · simp only [updateStep_currentStep]; omega
    · intro i hi; exact updateStep_hidden _ _ i hi
    · intro j hj; exact updateStep_indicator _ _ j hj
  · exact ⟨h1, h2, h3, h4, h5, h6⟩

theorem navInv_clickNav (n m : Nat) (s : Page) (b : NavButton) (h : NavInv n m s) :
    NavInv n m (clickNav s b) := by
  cases b
  · exact navInv_advance n m s h
  · exact navInv_advance n m s h
  · exact navInv_retreat n m s h
  · exact navInv_retreat n m s h

theorem navInv_runNav (n m : Nat) (clicks : List NavButton) (s : Page) (h : NavInv n m s) :
    NavInv n m (runNav s clicks) := by
  induction clicks generalizing s with
  | nil => exact h
  | cons b bs ih => exact ih (clickNav s b) (navInv_clickNav n m s b h)

theorem renderInvariant_of_navInv (n m : Nat) (s : Page) (h : NavInv n m s) (hm : n ≤ m) :
    RenderInvariant s := by
  obtain ⟨h1, h2, h3, h4, h5, h6⟩ := h
  have hc : s.currentStep.toNat < s.formSections.length := by omega
  have hc2 : s.currentStep.toNat < s.steps.length := by omega
  have hcast : ((s.currentStep.toNat : Nat) : Int) = s.currentStep := Int.toNat_of_nonneg h3
  refine ⟨⟨s.currentStep.toNat, ⟨hc, (h5 _ hc).2 hcast⟩, ?_⟩,
    ⟨s.currentStep.toNat, ⟨hc2, ((h6 _ hc2).1).2 hcast⟩, ?_⟩, h5, h6⟩
  · rintro i ⟨hi, hv⟩
    have := (h5 i hi).1 hv
    omega
  · rintro j ⟨hj, hv⟩
    have := ((h6 j hj).1).1 hv
    omega

/-- C2. On a page with at least one form section, `currentStep` is 0 after
load and, after every finite sequence of clicks on the four navigation buttons,
lies between 0 and the number of sections minus one, the section list keeping
its length: the index always names an existing section. -/
theorem step_index_bounds (markup : Page) (hN : 1 ≤ markup.formSections.length)
    (clicks : List NavButton) :
    (load markup).currentStep = 0
    ∧ 0 ≤ (runNav (load markup) clicks).currentStep
    ∧ (runNav (load markup) clicks).currentStep ≤ (markup.formSections.length : Int) - 1
    ∧ (runNav (load markup) clicks).formSections.length = markup.formSections.length := by
  have h := navInv_runNav _ _ clicks _ (navInv_load markup hN)
  exact ⟨rfl, h.2.2.1, h.2.2.2.1, h.1⟩

theorem step_index_bounds_witness :
    (load threeStepPage).currentStep = 0
    ∧ 0 ≤ (runNav (load threeStepPage)
        [.nextStepBtn, .nextToPaymentBtn, .nextStepBtn, .backToEventsBtn]).currentStep
    ∧ (runNav (load threeStepPage)
        [.nextStepBtn, .nextToPaymentBtn, .nextStepBtn, .backToEventsBtn]).currentStep
        ≤ (threeStepPage.formSections.length : Int) - 1
    ∧ (runNav (load threeStepPage)
        [.nextStepBtn, .nextToPaymentBtn, .nextStepBtn, .backToEventsBtn]).formSections.length
        = threeStepPage.formSections.length :=
  step_index_bounds threeStepPage (by decide) _

/-- C3. At a step `i` between 0 and `N - 1`, a click on `next-step` or
`next-to-payment` sets `currentStep` to `i + 1` and re-renders when
`i < N - 1`, and leaves the whole page as it is when `i = N - 1`; a click on
`back-to-personal` or `back-to-events` sets `currentStep` to `i - 1` and
re-renders when `0 < i`, and leaves the whole page as it is when `i = 0`.
Every click ends at a step between 0 and `N - 1`. -/
theorem step_transitions (s : Page) (hlo : 0 ≤ s.currentStep)
    (hhi : s.currentStep ≤ (s.formSections.length : Int) - 1) :
    (∀ b : NavButton, b = .nextStepBtn ∨ b = .nextToPaymentBtn →
      (s.currentStep < (s.formSections.length : Int) - 1 →
        (clickNav s b).currentStep = s.currentStep + 1
        ∧ clickNav s b
            = updateStep { s with currentStep := s.currentStep + 1 } (s.currentStep + 1))
      ∧ (s.currentStep = (s.formSections.length : Int) - 1 → clickNav s b = s))
    ∧ (∀ b : NavButton, b = .backToPersonalBtn ∨ b = .backToEventsBtn →
      (0 < s.currentStep →
        (clickNav s b).currentStep = s.currentStep - 1
        ∧ clickNav s b
            = updateStep { s with currentStep := s.currentStep - 1 } (s.currentStep - 1))
      ∧ (s.currentStep = 0 → clickNav s b = s))
    ∧ (∀ b : NavButton,
        0 ≤ (clickNav s b).currentStep
        ∧ (clickNav s b).currentStep ≤ ((clickNav s b).formSections.length : Int) - 1
        ∧ (clickNav s b).formSections.length = s.formSections.length) := by
  refine ⟨?_, ?_, ?_⟩
  · intro b hb
    have e : clickNav s b = advance s := by
      rcases hb with rfl | rfl <;> rfl
    rw [e]
    constructor
    · intro hlt
      simp [advance, hlt, updateStep_currentStep]
    · intro heq
      have : ¬ s.currentStep < (s.formSections.length : Int) - 1 := by omega
      simp [advance, this]
  · intro b hb
    have e : clickNav s b = retreat s := by
      rcases hb with rfl | rfl <;> rfl
    rw [e]
    constructor
    · intro hlt
      simp [retreat, hlt, updateStep_currentStep]
    · intro heq
      simp [retreat, heq]
  · intro b
    cases b <;> simp only [clickNav, advance, retreat] <;> split <;>
      simp only [updateStep_currentStep, updateStep_length_formSections] <;>
      refine ⟨?_, ?_, trivial⟩ <;> omega

theorem step_transitions_witness :
    (∀ b : NavButton, b = .nextStepBtn ∨ b = .nextToPaymentBtn →
      ((load threeStepPage).currentStep < ((load threeStepPage).formSections.length : Int) - 1 →
        (clickNav (load threeStepPage) b).currentStep = (load threeStepPage).currentStep + 1
        ∧ clickNav (load threeStepPage) b
            = updateStep { load threeStepPage with
                currentStep := (load threeStepPage).currentStep + 1 }
              ((load threeStepPage).currentStep + 1))
      ∧ ((load threeStepPage).currentStep = ((load threeStepPage).formSections.length : Int) - 1 →
          clickNav (load threeStepPage) b = load threeStepPage))
    ∧ (∀ b : NavButton, b = .backToPersonalBtn ∨ b = .backToEventsBtn →
      (0 < (load threeStepPage).currentStep →
        (clickNav (load threeStepPage) b).currentStep = (load threeStepPage).currentStep - 1
        ∧ clickNav (load threeStepPage) b
            = updateStep { load threeStepPage with
                currentStep := (load threeStepPage).currentStep - 1 }
              ((load threeStepPage).currentStep - 1))
      ∧ ((load threeStepPage).currentStep = 0 →
          clickNav (load threeStepPage) b = load threeStepPage))
    ∧ (∀ b : NavButton,
        0 ≤ (clickNav (load threeStepPage) b).currentStep
        ∧ (clickNav (load threeStepPage) b).currentStep
            ≤ ((clickNav (load threeStepPage) b).formSections.length : Int) - 1
        ∧ (clickNav (load threeStepPage) b).formSections.length
            = (load threeStepPage).formSections.length) :=
  step_transitions (load threeStepPage) (by decide) (by decide)

/-- C4, as the code has it. On a page with `N ≥ 1` form sections and at least
`N` step indicators, after the render on load and after any sequence of
navigation clicks, exactly one section lacks `hidden` and exactly one indicator
has `active`, both at index `currentStep`, and an indicator has `completed`
exactly when its index is below `currentStep`. -/
theorem render_invariant (markup : Page) (hN : 1 ≤ markup.formSections.length)
    (hsteps : markup.formSections.length ≤ markup.steps.length) (clicks : List NavButton) :
    RenderInvariant (runNav (load markup) clicks) :=
  renderInvariant_of_navInv _ _ _ (navInv_runNav _ _ clicks _ (navInv_load markup hN)) hsteps

theorem render_invariant_witness :
    RenderInvariant (runNav (load threeStepPage) [.nextStepBtn, .backToPersonalBtn]) :=
  render_invariant threeStepPage (by decide) (by decide) _

/-- C4 as stated fails: on a page with two sections and one indicator, one
click on `next-step` after load leaves no indicator with `active`. -/
theorem render_invariant_fails_short_indicator_list :
    1 ≤ shortIndicatorPage.formSections.length
    ∧ ¬ RenderInvariant (runNav (load shortIndicatorPage) [.nextStepBtn]) := by
  refine ⟨by decide, ?_⟩
  rintro ⟨-, ⟨j, ⟨hj, hact⟩, -⟩, -⟩
  have hs : (runNav (load shortIndicatorPage) [.nextStepBtn]).steps = [["step", "completed"]] := by
    decide
  simp only [hs] at hact hj
  simp at hj
  subst hj
  simp at hact

/-! ## Selection cap -/

theorem setChecked_setChecked (bs : List Checkbox) (i : Nat) (a b : Bool) :
    setChecked (setChecked bs i a) i b = setChecked bs i b := by
  induction bs generalizing i with
  | nil => rfl
  | cons x xs ih =>
    cases i with
    | zero => rfl
    | succ n => simp [setChecked, ih]

theorem setChecked_self (bs : List Checkbox) (i : Nat) (d : Checkbox)
    (h : bs[i]? = some d) : setChecked bs i d.checked = bs := by
  induction bs generalizing i with
  | nil => rfl
  | cons x xs ih =>
    cases i with
    | zero =>
      simp at h
      subst h
      rfl
    | succ n =>
      simp at h
      simp [setChecked, ih n h]

theorem count_setChecked_false_le (bs : List Checkbox) (i : Nat) :
    ((setChecked bs i false).filter (fun b => b.checked)).length
      ≤ (bs.filter (fun b => b.checked)).length := by
  induction bs generalizing i with
  | nil => simp [setChecked]
  | cons x xs ih =>
    cases i with
    | zero =>
      cases hx : x.checked <;> simp [setChecked, List.filter_cons, hx]
    | succ n =>
      have := ih n
      cases hx : x.checked <;> simp [setChecked, List.filter_cons, hx] <;> omega

theorem count_setChecked_true (bs : List Checkbox) (i : Nat) (d : Checkbox)
    (h : bs[i]? = some d) (hd : d.checked = false) :
    ((setChecked bs i true).filter (fun b => b.checked)).length
      = (bs.filter (fun b => b.checked)).length + 1 := by
  induction bs generalizing i with
  | nil => simp at h
  | cons x xs ih =>
    cases i with
    | zero =>
      simp at h
      subst h
      simp [setChecked, List.filter_cons, hd]
    | succ n =>
      simp at h
      have := ih n h
      cases hx : x.checked <;> simp [setChecked, List.filter_cons, hx] <;> omega

theorem checkedCount_toggleBox (s : Page) (i : Nat) (h : checkedCount s ≤ 3) :
    checkedCount (toggleBox s i) ≤ 3 := by
  unfold toggleBox
  split
  · exact h
  · next b hb =>
    unfold changeHandler
    split
    · simp only [checkedCount, setChecked_setChecked]
      exact le_trans (count_setChecked_false_le _ _) h
    · next hle => omega

/-- C1. From a page with at most 3 event boxes checked, after each toggle of
any finite sequence of toggles (the box flips, then its `change` handler
runs) at most 3 event boxes are checked. -/
theorem selection_cap_invariant (s : Page) (h : checkedCount s ≤ 3) (toggles : List Nat) :
    ∀ t ∈ toggleTrace s toggles, checkedCount t ≤ 3 := by
  induction toggles generalizing s with
  | nil => intro t ht; simp [toggleTrace] at ht
  | cons i is ih =>
    intro t ht
    simp only [toggleTrace, List.mem_cons] at ht
    rcases ht with rfl | ht
    · exact checkedCount_toggleBox s i h
    · exact ih (toggleBox s i) (checkedCount_toggleBox s i h) t ht

theorem selection_cap_invariant_witness :
    checkedCount fourBoxPage ≤ 3
    ∧ ∀ t ∈ toggleTrace fourBoxPage [3, 0, 3, 1, 1, 2], checkedCount t ≤ 3 :=
  ⟨by decide, selection_cap_invariant fourBoxPage (by decide) _⟩

/-- C10. With exactly 3 event boxes checked, checking a further box and
running its `change` handler leaves every box as it was before the click (the
toggled box unchecked, the three others checked) and adds exactly one alert,
nothing else on the page changing; a toggle after which at most 3 boxes are
checked only flips the box and adds no alert. -/
theorem over_cap_toggle_reverts (s : Page) (i : Nat) (d : Checkbox)
    (hd : s.eventBoxes[i]? = some d) :
    (checkedCount s = 3 → d.checked = false →
      toggleBox s i = { s with alerts := s.alerts ++ [capAlert] })
    ∧ (checkedCount { s with eventBoxes := setChecked s.eventBoxes i (!d.checked) } ≤ 3 →
      toggleBox s i = { s with eventBoxes := setChecked s.eventBoxes i (!d.checked) }) := by
  constructor
  · intro h3 hdc
    have hcount : checkedCount { s with eventBoxes := setChecked s.eventBoxes i true } > 3 := by
      simp only [checkedCount] at h3 ⊢
      rw [count_setChecked_true _ _ d hd hdc]
      omega
    have hback : setChecked s.eventBoxes i false = s.eventBoxes := by
      rw [← hdc]; exact setChecked_self _ _ d hd
    simp only [toggleBox, hd, hdc, Bool.not_false, changeHandler, hcount, if_true,
      setChecked_setChecked, hback]
  · intro hle
    have : ¬ checkedCount { s with eventBoxes := setChecked s.eventBoxes i (!d.checked) } > 3 := by
      omega
    simp only [toggleBox, hd, changeHandler, this, if_false]

theorem over_cap_toggle_reverts_witness :
    toggleBox fourBoxPage 3 = { fourBoxPage with alerts := fourBoxPage.alerts ++ [capAlert] }
    ∧ toggleBox fourBoxPage 0
        = { fourBoxPage with
            eventBoxes :=
              setChecked fourBoxPage.eventBoxes 0 (!(Checkbox.mk "quiz" true).checked) } :=
  ⟨(over_cap_toggle_reverts fourBoxPage 3 ⟨"gaming", false⟩ (by decide)).1 (by decide) rfl,
   (over_cap_toggle_reverts fourBoxPage 0 ⟨"quiz", true⟩ (by decide)).2 (by decide)⟩

/-! ## Submission -/

theorem selectedOption_renderTicket (s : Page) (u : UserData) (r : RegisterResponse) :
    selectedOption (renderTicket s u r) = selectedOption s := by
  unfold renderTicket updatePaymentDisplay
  split <;> rfl

theorem renderTicket_log (s : Page) (u : UserData) (r : RegisterResponse) :
    (renderTicket s u r).requests = s.requests
    ∧ (renderTicket s u r).location = s.location
    ∧ (renderTicket s u r).alerts = s.alerts
    ∧ (renderTicket s u r).consoleErrors = s.consoleErrors := by
  unfold renderTicket updatePaymentDisplay
  split <;> exact ⟨rfl, rfl, rfl, rfl⟩

theorem renderTicket_fields (s : Page) (u : UserData) (r : RegisterResponse) :
    (renderTicket s u r).registrationForm = classAdd s.registrationForm "hidden"
    ∧ (renderTicket s u r).successContainer = classRemove s.successContainer "hidden"
    ∧ (renderTicket s u r).registrationID = r.ticket_id
    ∧ (renderTicket s u r).qrcode = s.qrcode ++ [⟨r.ticket_id, 160, 160⟩]
    ∧ (renderTicket s u r).ticketName = u.name
    ∧ (renderTicket s u r).ticketEmail = u.email
    ∧ (renderTicket s u r).ticketEvents = ", ".intercalate u.events := by
  unfold renderTicket updatePaymentDisplay
  split <;> exact ⟨rfl, rfl, rfl, rfl, rfl, rfl, rfl⟩

theorem renderTicket_badge (s : Page) (u : UserData) (r : RegisterResponse) :
    (u.payment_status = some "paid" →
      (renderTicket s u r).ticketPaymentStatus = paidBadge
      ∧ (renderTicket s u r).offlineMessage
          = s.offlineMessage.map (fun c => classAdd c "hidden"))
    ∧ (u.payment_status ≠ some "paid" →
      (renderTicket s u r).ticketPaymentStatus = s.ticketPaymentStatus
      ∧ (renderTicket s u r).offlineMessage = s.offlineMessage) := by
  unfold renderTicket updatePaymentDisplay
  constructor
  · intro h; simp [h]
  · intro h; simp [h]

theorem successBranch_ok (s : Page) (u : UserData) (r : RegisterResponse) (sel : DeptOption)
    (h : selectedOption s = some sel) :
    successBranch s u r
      = .ok { renderTicket s u r with
              ticketDepartment := sel.textContent
              alerts := (renderTicket s u r).alerts ++ ["Registration Successful! Check your email."] } := by
  have e := selectedOption_renderTicket s u r
  rw [h] at e
  simp only [successBranch, e]

theorem successBranch_error (s : Page) (u : UserData) (r : RegisterResponse)
    (h : selectedOption s = none) :
    successBranch s u r = .error (renderTicket s u r) := by
  have e := selectedOption_renderTicket s u r
  rw [h] at e
  simp only [successBranch, e]

theorem keyGet_assign_self (kvs : List (String × String)) (key value : String) :
    keyGet (assign kvs key value) key = some value := by
  induction kvs with
  | nil => simp [assign, keyGet]
  | cons kv rest ih =>
    obtain ⟨k, v⟩ := kv
    by_cases h : k = key
    · simp [assign, keyGet, h]
    · simp [assign, keyGet, h, ih]

theorem withPayment_none (u : UserData) :
    withPayment u none = { u with added := assign u.added "payment_status" "pending" } := by
  simp [withPayment, truthy]

theorem payment_status_withPayment (u : UserData) (paymentId : Option String) :
    (withPayment u paymentId).payment_status
      = some (if truthy paymentId then "paid" else "pending") := by
  by_cases h : truthy paymentId = true
  · simp [withPayment, h, UserData.payment_status, keyGet_assign_self]
  · simp [withPayment, h, UserData.payment_status, keyGet_assign_self]

theorem completeRegistration_failure (s : Page) (u : UserData) (paymentId : Option String)
    (r : RegisterResponse) (text : String) (hr : r.status ≠ some "success")
    (ht : detailOrFallback r.detail = some text) :
    completeRegistration s u paymentId (.json r)
      = { s with
          requests := s.requests ++ [registerRequest (withPayment u paymentId)]
          alerts := s.alerts ++ ["Error: " ++ text] } := by
  simp only [completeRegistration, tryBlock, hr, if_false, ht]

theorem completeRegistration_failure_throw (s : Page) (u : UserData)
    (paymentId : Option String) (r : RegisterResponse) (hr : r.status ≠ some "success")
    (ht : detailOrFallback r.detail = none) :
    completeRegistration s u paymentId (.json r)
      = catchBlock
          { s with requests := s.requests ++ [registerRequest (withPayment u paymentId)] } := by
  simp only [completeRegistration, tryBlock, hr, if_false, ht]

theorem completeRegistration_success (s : Page) (u : UserData) (paymentId : Option String)
    (r : RegisterResponse) (sel : DeptOption) (hr : r.status = some "success")
    (hsel : selectedOption s = some sel) :
    completeRegistration s u paymentId (.json r)
      = { renderTicket
            { s with requests := s.requests ++ [registerRequest (withPayment u paymentId)] }
            (withPayment u paymentId) r with
          ticketDepartment := sel.textContent
          alerts :=
            (renderTicket
              { s with requests := s.requests ++ [registerRequest (withPayment u paymentId)] }
              (withPayment u paymentId) r).alerts
            ++ ["Registration Successful! Check your email."] } := by
  have hsel2 : selectedOption
      { s with requests := s.requests ++ [registerRequest (withPayment u paymentId)] }
      = some sel := hsel
  simp only [completeRegistration, tryBlock, hr, if_true, successBranch_ok _ _ _ sel hsel2]

theorem completeRegistration_success_throw (s : Page) (u : UserData)
    (paymentId : Option String) (r : RegisterResponse) (hr : r.status = some "success")
    (hsel : selectedOption s = none) :
    completeRegistration s u paymentId (.json r)
      = catchBlock
          (renderTicket
            { s with requests := s.requests ++ [registerRequest (withPayment u paymentId)] }
            (withPayment u paymentId) r) := by
  have hsel2 : selectedOption
      { s with requests := s.requests ++ [registerRequest (withPayment u paymentId)] }
      = none := hsel
  simp only [completeRegistration, tryBlock, hr, if_true, successBranch_error _ _ _ hsel2]

theorem completeRegistration_requests (s : Page) (u : UserData) (paymentId : Option String)
    (o : FetchOutcome) :
    (completeRegistration s u paymentId o).requests
      = s.requests ++ [registerRequest (withPayment u paymentId)]
    ∧ (completeRegistration s u paymentId o).location = s.location := by
  cases o with
  | rejects => exact ⟨rfl, rfl⟩
  | notJson => exact ⟨rfl, rfl⟩
  | jsonNull => exact ⟨rfl, rfl⟩
  | json r =>
    by_cases hr : r.status = some "success"
    · cases hs : selectedOption s with
      | none =>
        rw [completeRegistration_success_throw _ _ _ _ hr hs]
        simp [catchBlock, renderTicket_log]
      | some sel =>
        rw [completeRegistration_success _ _ _ _ sel hr hs]
        simp [renderTicket_log]
    · cases ht : detailOrFallback r.detail with
      | none =>
        rw [completeRegistration_failure_throw _ _ _ _ hr ht]
        exact ⟨rfl, rfl⟩
      | some text =>
        rw [completeRegistration_failure _ _ _ _ text hr ht]
        exact ⟨rfl, rfl⟩

theorem mem_classAdd_self (c : List String) (t : String) : t ∈ classAdd c t := by
  by_cases h : t ∈ c <;> simp [classAdd, h]

theorem not_mem_classRemove_self (c : List String) (t : String) : t ∉ classRemove c t := by
  simp [classRemove]

theorem submitClick_offline (s : Page) (o : FetchOutcome) (h : s.paymentMode = some "offline") :
    submitClick s o
      = .ok (completeRegistration
          { s with registrationData := some (withPayment (collect s "offline") none) }
          (collect s "offline") none o) := by
  simp [submitClick, h]

/-- C6. With the payment radio `offline` checked, a click on submit ends
normally and issues exactly one request: a POST to the registration endpoint
with header `Content-Type: application/json` whose body holds the collected
fields, the values of the checked event boxes in document order,
`payment_mode = "offline"` and `payment_status = "pending"`, and has no key
`payment_id`; `window.location.href` is not assigned. -/
theorem offline_submission_request (s : Page) (o : FetchOutcome)
    (h : s.paymentMode = some "offline") :
    ∃ (s' : Page) (req : Request),
      submitClick s o = .ok s'
      ∧ s'.requests = s.requests ++ [req]
      ∧ req.url = "https://infest2k25registration.onrender.com/register"
      ∧ req.method = "POST"
      ∧ req.headers = [("Content-Type", "application/json")]
      ∧ req.body =
          [("name", .str s.name), ("email", .str s.email), ("phone", .str s.phone),
           ("whatsapp", .str s.whatsapp), ("college", .str s.college), ("year", .str s.year),
           ("department", .str (departmentValue s)),
           ("events", .arr ((s.eventBoxes.filter (fun b => b.checked)).map (fun b => b.value))),
           ("payment_mode", .str "offline"), ("project_link", .str s.projectLink),
           ("payment_status", .str "pending")]
      ∧ (∀ v : JsonVal, ("payment_id", v) ∉ req.body)
      ∧ s'.location = s.location := by
  refine ⟨_, registerRequest (withPayment (collect s "offline") none),
    submitClick_offline s o h, ?_, rfl, rfl, rfl, ?_, ?_, ?_⟩
  · exact (completeRegistration_requests _ _ _ _).1
  · simp [registerRequest, jsonBody, withPayment_none, collect, assign]
  · intro v
    simp [registerRequest, jsonBody, withPayment_none, collect, assign]
  · exact (completeRegistration_requests _ _ _ _).2

theorem offline_submission_request_witness :
    ∃ (s' : Page) (req : Request),
      submitClick offlinePage .rejects = .ok s'
      ∧ s'.requests = offlinePage.requests ++ [req]
      ∧ req.url = "https://infest2k25registration.onrender.com/register"
      ∧ req.method = "POST"
      ∧ req.headers = [("Content-Type", "application/json")]
      ∧ req.body =
          [("name", .str offlinePage.name), ("email", .str offlinePage.email),
           ("phone", .str offlinePage.phone), ("whatsapp", .str offlinePage.whatsapp),
           ("college", .str offlinePage.college), ("year", .str offlinePage.year),
           ("department", .str (departmentValue offlinePage)),
           ("events",
            .arr ((offlinePage.eventBoxes.filter (fun b => b.checked)).map (fun b => b.value))),
           ("payment_mode", .str "offline"), ("project_link", .str offlinePage.projectLink),
           ("payment_status", .str "pending")]
      ∧ (∀ v : JsonVal, ("payment_id", v) ∉ req.body)
      ∧ s'.location = offlinePage.location :=
  offline_submission_request offlinePage .rejects rfl

/-- C7. With the payment radio `online` checked, a click on submit ends
normally, calls `fetch` not at all, sets `window.location.href` to
`https://rzp.io/rzp/qE5ylHJ` and renders nothing: the form, the confirmation
panel, the ticket fields, the QR container and the alerts are as before. -/
theorem online_submission_redirects (s : Page) (o : FetchOutcome)
    (h : s.paymentMode = some "online") :
    ∃ s' : Page,
      submitClick s o = .ok s'
      ∧ s'.requests = s.requests
      ∧ s'.location = "https://rzp.io/rzp/qE5ylHJ"
      ∧ FormUntouched s s'
      ∧ s'.alerts = s.alerts
      ∧ s' = { s with registrationData := some (collect s "online"), location := paymentUrl } := by
  refine ⟨{ s with registrationData := some (collect s "online"), location := paymentUrl },
    ?_, rfl, rfl, ?_, rfl, rfl⟩
  · simp [submitClick, h]
  · exact ⟨rfl, rfl, rfl, rfl, rfl, rfl, rfl, rfl, rfl, rfl⟩

theorem online_submission_redirects_witness :
    ∃ s' : Page,
      submitClick onlinePage (.json ⟨some "success", "T123", .undefined⟩) = .ok s'
      ∧ s'.requests = onlinePage.requests
      ∧ s'.location = "https://rzp.io/rzp/qE5ylHJ"
      ∧ FormUntouched onlinePage s'
      ∧ s'.alerts = onlinePage.alerts
      ∧ s' = { onlinePage with
               registrationData := some (collect onlinePage "online"), location := paymentUrl } :=
  online_submission_redirects onlinePage _ rfl

theorem completeRegistration_success_render (s : Page) (u : UserData)
    (paymentId : Option String) (r : RegisterResponse) (hr : r.status = some "success") :
    (completeRegistration s u paymentId (.json r)).registrationForm
        = classAdd s.registrationForm "hidden"
    ∧ (completeRegistration s u paymentId (.json r)).successContainer
        = classRemove s.successContainer "hidden"
    ∧ (completeRegistration s u paymentId (.json r)).registrationID = r.ticket_id
    ∧ (completeRegistration s u paymentId (.json r)).qrcode
        = s.qrcode ++ [⟨r.ticket_id, 160, 160⟩]
    ∧ (completeRegistration s u paymentId (.json r)).ticketName = (withPayment u paymentId).name
    ∧ (completeRegistration s u paymentId (.json r)).ticketEmail = (withPayment u paymentId).email
    ∧ (completeRegistration s u paymentId (.json r)).ticketEvents
        = ", ".intercalate (withPayment u paymentId).events
    ∧ (completeRegistration s u paymentId (.json r)).ticketPaymentStatus
        = (if truthy paymentId then paidBadge else s.ticketPaymentStatus)
    ∧ (completeRegistration s u paymentId (.json r)).offlineMessage
        = (if truthy paymentId then s.offlineMessage.map (fun c => classAdd c "hidden")
            else s.offlineMessage) := by
  obtain ⟨f1, f2, f3, f4, f5, f6, f7⟩ := renderTicket_fields
    { s with requests := s.requests ++ [registerRequest (withPayment u paymentId)] }
    (withPayment u paymentId) r
  have hb := renderTicket_badge
    { s with requests := s.requests ++ [registerRequest (withPayment u paymentId)] }
    (withPayment u paymentId) r
  have hst := payment_status_withPayment u paymentId
  have hbadge :
      (renderTicket
          { s with requests := s.requests ++ [registerRequest (withPayment u paymentId)] }
          (withPayment u paymentId) r).ticketPaymentStatus
        = (if truthy paymentId then paidBadge else s.ticketPaymentStatus)
      ∧ (renderTicket
          { s with requests := s.requests ++ [registerRequest (withPayment u paymentId)] }
          (withPayment u paymentId) r).offlineMessage
        = (if truthy paymentId then s.offlineMessage.map (fun c => classAdd c "hidden")
            else s.offlineMessage) := by
    by_cases hp : truthy paymentId = true
    · rw [if_pos hp, if_pos hp]
      exact hb.1 (by rw [hst, if_pos hp])
    · rw [if_neg hp, if_neg hp]
      exact hb.2 (by rw [hst, if_neg hp]; decide)
  cases hs : selectedOption s with
  | none =>
    rw [completeRegistration_success_throw _ _ _ _ hr hs]
    exact ⟨f1, f2, f3, f4, f5, f6, f7, hbadge.1, hbadge.2⟩
  | some sel =>
    rw [completeRegistration_success _ _ _ _ sel hr hs]
    exact ⟨f1, f2, f3, f4, f5, f6, f7, hbadge.1, hbadge.2⟩

theorem completeRegistration_success_department (s : Page) (u : UserData)
    (paymentId : Option String) (r : RegisterResponse) (hr : r.status = some "success") :
    (∀ sel : DeptOption, selectedOption s = some sel →
      (completeRegistration s u paymentId (.json r)).ticketDepartment = sel.textContent
      ∧ (completeRegistration s u paymentId (.json r)).alerts
          = s.alerts ++ ["Registration Successful! Check your email."])
    ∧ (selectedOption s = none →
      (completeRegistration s u paymentId (.json r)).ticketDepartment = s.ticketDepartment
      ∧ (completeRegistration s u paymentId (.json r)).alerts
          = s.alerts ++ ["An error occurred. Please try again."]) := by
  have hl := renderTicket_log
    { s with requests := s.requests ++ [registerRequest (withPayment u paymentId)] }
    (withPayment u paymentId) r
  have hd : (renderTicket
      { s with requests := s.requests ++ [registerRequest (withPayment u paymentId)] }
      (withPayment u paymentId) r).ticketDepartment = s.ticketDepartment := by
    unfold renderTicket updatePaymentDisplay
    split <;> rfl
  constructor
  · intro sel hs
    rw [completeRegistration_success _ _ _ _ sel hr hs]
    refine ⟨rfl, ?_⟩
    dsimp only
    rw [hl.2.2.1]
  · intro hs
    rw [completeRegistration_success_throw _ _ _ _ hr hs]
    refine ⟨hd, ?_⟩
    simp only [catchBlock]
    rw [hl.2.2.1]

/-- C8, as the code has it. For an offline submission whose response is
`{status: "success", ticket_id: t}`, the click on submit ends normally with
`hidden` on the registration form and off the confirmation panel,
`registration-id` set to `t`, one QR code of text `t` (160 by 160) rendered,
`ticket-name` and `ticket-email` set to the submitted name and email,
`ticket-events` to the checked event values joined by `", "`, and the payment
badge and the offline message left as the page markup has them.  When a
department option is selected, `ticket-department` is set to its text and the
success alert is shown; when none is, `ticket-department` is not written and
the generic error alert is shown.  In any call of `completeRegistration` with
a success response the badge is the paid one exactly when the call carries a
payment id. -/
theorem success_rendering (s : Page) (t : String) (detail : JsValue)
    (hmode : s.paymentMode = some "offline") :
    (∃ s' : Page,
      submitClick s (.json ⟨some "success", t, detail⟩) = .ok s'
      ∧ "hidden" ∈ s'.registrationForm
      ∧ "hidden" ∉ s'.successContainer
      ∧ s'.registrationID = t
      ∧ s'.qrcode = s.qrcode ++ [⟨t, 160, 160⟩]
      ∧ s'.ticketName = s.name
      ∧ s'.ticketEmail = s.email
      ∧ s'.ticketEvents
          = ", ".intercalate ((s.eventBoxes.filter (fun b => b.checked)).map (fun b => b.value))
      ∧ s'.ticketPaymentStatus = s.ticketPaymentStatus
      ∧ s'.offlineMessage = s.offlineMessage
      ∧ (∀ sel : DeptOption, selectedOption s = some sel →
          s'.ticketDepartment = sel.textContent
          ∧ s'.alerts = s.alerts ++ ["Registration Successful! Check your email."])
      ∧ (selectedOption s = none →
          s'.ticketDepartment = s.ticketDepartment
          ∧ s'.alerts = s.alerts ++ ["An error occurred. Please try again."]))
    ∧ (∀ (u : UserData) (paymentId : Option String),
        (completeRegistration s u paymentId (.json ⟨some "success", t, detail⟩)).ticketPaymentStatus
          = if truthy paymentId then paidBadge else s.ticketPaymentStatus) := by
  constructor
  · refine ⟨_, submitClick_offline s _ hmode, ?_⟩
    obtain ⟨f1, f2, f3, f4, f5, f6, f7, f8, f9⟩ := completeRegistration_success_render
      { s with registrationData := some (withPayment (collect s "offline") none) }
      (collect s "offline") none ⟨some "success", t, detail⟩ rfl
    obtain ⟨d1, d2⟩ := completeRegistration_success_department
      { s with registrationData := some (withPayment (collect s "offline") none) }
      (collect s "offline") none ⟨some "success", t, detail⟩ rfl
    refine ⟨?_, ?_, f3, f4, ?_, ?_, ?_, ?_, ?_, d1, d2⟩
    · rw [f1]; exact mem_classAdd_self _ _
    · rw [f2]; exact not_mem_classRemove_self _ _
    · rw [f5, withPayment_none]; rfl
    · rw [f6, withPayment_none]; rfl
    · rw [f7, withPayment_none]; rfl
    · rw [f8]; rfl
    · rw [f9]; rfl
  · intro u paymentId
    exact (completeRegistration_success_render s u paymentId ⟨some "success", t, detail⟩
      rfl).2.2.2.2.2.2.2.1

theorem success_rendering_witness :
    (∃ s' : Page,
      submitClick offlinePage (.json ⟨some "success", "T123", .undefined⟩) = .ok s'
      ∧ "hidden" ∈ s'.registrationForm
      ∧ "hidden" ∉ s'.successContainer
      ∧ s'.registrationID = "T123"
      ∧ s'.qrcode = offlinePage.qrcode ++ [⟨"T123", 160, 160⟩]
      ∧ s'.ticketName = offlinePage.name
      ∧ s'.ticketEmail = offlinePage.email
      ∧ s'.ticketEvents
          = ", ".intercalate
              ((offlinePage.eventBoxes.filter (fun b => b.checked)).map (fun b => b.value))
      ∧ s'.ticketPaymentStatus = offlinePage.ticketPaymentStatus
      ∧ s'.offlineMessage = offlinePage.offlineMessage
      ∧ (∀ sel : DeptOption, selectedOption offlinePage = some sel →
          s'.ticketDepartment = sel.textContent
          ∧ s'.alerts = offlinePage.alerts ++ ["Registration Successful! Check your email."])
      ∧ (selectedOption offlinePage = none →
          s'.ticketDepartment = offlinePage.ticketDepartment
          ∧ s'.alerts = offlinePage.alerts ++ ["An error occurred. Please try again."]))
    ∧ (∀ (u : UserData) (paymentId : Option String),
        (completeRegistration offlinePage u paymentId
            (.json ⟨some "success", "T123", .undefined⟩)).ticketPaymentStatus
          = if truthy paymentId then paidBadge else offlinePage.ticketPaymentStatus) :=
  success_rendering offlinePage "T123" .undefined rfl

/-- C8 as stated fails. With the department options present and none
selected, an offline submission answered `{status: "success", ticket_id:
"T123"}` leaves `ticket-department` empty, the text of no option, and shows the
error alert.  On a page whose markup gives the badge the paid style, the same
submission, sent with `payment_status` `pending`, ends with the paid badge. -/
theorem success_rendering_fails_unselected :
    (∃ s' : Page,
      submitClick unselectedPage (.json ⟨some "success", "T123", .undefined⟩) = .ok s'
      ∧ selectedOption unselectedPage = none
      ∧ s'.ticketDepartment = ""
      ∧ (∀ o ∈ unselectedPage.deptOptions, s'.ticketDepartment ≠ o.textContent)
      ∧ s'.alerts = ["An error occurred. Please try again."])
    ∧ (∃ s' : Page,
      submitClick paidMarkupPage (.json ⟨some "success", "T123", .undefined⟩) = .ok s'
      ∧ s'.registrationData.map UserData.payment_status = some (some "pending")
      ∧ s'.ticketPaymentStatus = paidBadge) :=
  ⟨⟨_, rfl, by decide, by decide, by decide, by decide⟩, ⟨_, rfl, by decide, by decide⟩⟩

theorem detailOrFallback_str (d : String) :
    detailOrFallback (.str d) = some (if d ≠ "" then d else "Could not process registration.") := by
  by_cases h : d = "" <;> simp [detailOrFallback, JsValue.truthy, JsValue.toStr, h]

theorem detailOrFallback_falsy (v : JsValue) (h : v.truthy = false) :
    detailOrFallback v = some "Could not process registration." := by
  simp [detailOrFallback, h, JsValue.toStr]

theorem completeRegistration_failure_alert (s : Page) (u : UserData)
    (paymentId : Option String) (r : RegisterResponse) (hr : r.status ≠ some "success") :
    (completeRegistration s u paymentId (.json r)).alerts
        = s.alerts ++ [match detailOrFallback r.detail with
            | some text => "Error: " ++ text
            | none => "An error occurred. Please try again."]
    ∧ FormUntouched s (completeRegistration s u paymentId (.json r)) := by
  cases ht : detailOrFallback r.detail with
  | none =>
    rw [completeRegistration_failure_throw _ _ _ _ hr ht]
    exact ⟨rfl, rfl, rfl, rfl, rfl, rfl, rfl, rfl, rfl, rfl, rfl⟩
  | some text =>
    rw [completeRegistration_failure _ _ _ _ text hr ht]
    exact ⟨rfl, rfl, rfl, rfl, rfl, rfl, rfl, rfl, rfl, rfl, rfl⟩

/-- C9, as the code has it. For a response whose status is not `"success"`,
exactly one alert is added and the form and the confirmation panel are as
before.  When the detail is a string the text contains it: it is `Error: `
followed by the detail when that is not empty.  When the response has no
detail, or a falsy one (`""`, `null`, `false`, `0`), the text is
`Error: Could not process registration.`. -/
theorem server_failure_message (s : Page) (u : UserData) (paymentId : Option String)
    (r : RegisterResponse) (hr : r.status ≠ some "success") :
    ∃ text : String,
      (completeRegistration s u paymentId (.json r)).alerts = s.alerts ++ [text]
      ∧ (∀ d : String, r.detail = .str d → d.data <:+: text.data)
      ∧ (∀ d : String, r.detail = .str d → d ≠ "" → text = "Error: " ++ d)
      ∧ (r.detail.truthy = false → text = "Error: Could not process registration.")
      ∧ FormUntouched s (completeRegistration s u paymentId (.json r)) := by
  obtain ⟨ha, hf⟩ := completeRegistration_failure_alert s u paymentId r hr
  refine ⟨_, ha, ?_, ?_, ?_, hf⟩
  · intro d hd
    rw [hd, detailOrFallback_str]
    by_cases hne : d = ""
    · subst hne
      exact List.nil_infix
    · refine ⟨"Error: ".data, [], ?_⟩
      simp [hne, String.data_append]
  · intro d hd hne
    rw [hd, detailOrFallback_str]
    simp [hne]
  · intro hfalsy
    rw [detailOrFallback_falsy _ hfalsy]
    rfl

theorem server_failure_message_witness :
    ∃ text : String,
      (completeRegistration offlinePage (collect offlinePage "offline") none
          (.json ⟨some "error", "", .str "Email already used"⟩)).alerts
        = offlinePage.alerts ++ [text]
      ∧ (∀ d : String, JsValue.str "Email already used" = .str d → d.data <:+: text.data)
      ∧ (∀ d : String, JsValue.str "Email already used" = .str d → d ≠ "" →
          text = "Error: " ++ d)
      ∧ ((JsValue.str "Email already used").truthy = false →
          text = "Error: Could not process registration.")
      ∧ FormUntouched offlinePage
          (completeRegistration offlinePage (collect offlinePage "offline") none
            (.json ⟨some "error", "", .str "Email already used"⟩)) :=
  server_failure_message offlinePage (collect offlinePage "offline") none
    ⟨some "error", "", .str "Email already used"⟩ (by decide)

/-- C9 as stated fails. The response `validationError` has no status
`"success"` and carries a detail, an array of one object whose `msg` is
`Email already used`; the single alert reads `Error: [object Object]`, which
holds neither that message nor the fallback text. -/
theorem server_failure_message_fails_structured_detail :
    validationError.status ≠ some "success"
    ∧ validationError.detail.truthy = true
    ∧ (completeRegistration offlinePage (collect offlinePage "offline") none
        (.json validationError)).alerts = ["Error: [object Object]"]
    ∧ ¬ ("Email already used".data <:+: "Error: [object Object]".data)
    ∧ ¬ ("Could not process registration.".data <:+: "Error: [object Object]".data) := by
  refine ⟨by decide, by decide, by decide, ?_, ?_⟩
  · decide
  · decide

/-- C5, as the code has it. When the request rejects, the response is not
JSON, the response is `null`, or its status is not `"success"`, exactly one
error alert is added and nothing of the form or of the confirmation panel is
written: form and panel classes, ticket fields, QR container and payment badge
are as before. -/
theorem failure_leaves_form_unchanged (s : Page) (u : UserData) (paymentId : Option String)
    (o : FetchOutcome)
    (h : o = .rejects ∨ o = .notJson ∨ o = .jsonNull
      ∨ ∃ r : RegisterResponse, o = .json r ∧ r.status ≠ some "success") :
    (∃ text : String,
      (completeRegistration s u paymentId o).alerts = s.alerts ++ [text]
      ∧ (text = "An error occurred. Please try again."
          ∨ ∃ (r : RegisterResponse) (t : String),
              o = .json r ∧ detailOrFallback r.detail = some t ∧ text = "Error: " ++ t))
    ∧ FormUntouched s (completeRegistration s u paymentId o) := by
  rcases h with rfl | rfl | rfl | ⟨r, rfl, hr⟩
  · exact ⟨⟨_, rfl, Or.inl rfl⟩, rfl, rfl, rfl, rfl, rfl, rfl, rfl, rfl, rfl, rfl⟩
  · exact ⟨⟨_, rfl, Or.inl rfl⟩, rfl, rfl, rfl, rfl, rfl, rfl, rfl, rfl, rfl, rfl⟩
  · exact ⟨⟨_, rfl, Or.inl rfl⟩, rfl, rfl, rfl, rfl, rfl, rfl, rfl, rfl, rfl, rfl⟩
  · obtain ⟨ha, hf⟩ := completeRegistration_failure_alert s u paymentId r hr
    refine ⟨⟨_, ha, ?_⟩, hf⟩
    cases ht : detailOrFallback r.detail with
    | none => exact Or.inl rfl
    | some t => exact Or.inr ⟨r, t, rfl, ht, rfl⟩

theorem failure_leaves_form_unchanged_witness :
    (∃ text : String,
      (completeRegistration offlinePage (collect offlinePage "offline") none .rejects).alerts
        = offlinePage.alerts ++ [text]
      ∧ (text = "An error occurred. Please try again."
          ∨ ∃ (r : RegisterResponse) (t : String),
              FetchOutcome.rejects = .json r ∧ detailOrFallback r.detail = some t
              ∧ text = "Error: " ++ t))
    ∧ FormUntouched offlinePage
        (completeRegistration offlinePage (collect offlinePage "offline") none .rejects) :=
  failure_leaves_form_unchanged offlinePage (collect offlinePage "offline") none .rejects
    (Or.inl rfl)

/-- C5 as stated fails: with no department option selected and the response
`{status: "success", ticket_id: "T123"}`, line 121 throws inside the `try`
block after the writes of lines 88-116; the generic error alert is shown, yet
the form carries `hidden`, the confirmation panel does not, and the ticket id
and a QR code of text `T123` have been written. -/
theorem failure_after_partial_render :
    (∃ e : Page,
      tryBlock noOptionPage (withPayment (collect noOptionPage "offline") none)
        (.json ⟨some "success", "T123", .undefined⟩) = .error e)
    ∧ (completeRegistration noOptionPage (collect noOptionPage "offline") none
        (.json ⟨some "success", "T123", .undefined⟩)).alerts
        = ["An error occurred. Please try again."]
    ∧ "hidden" ∉ noOptionPage.registrationForm
    ∧ "hidden" ∈ (completeRegistration noOptionPage (collect noOptionPage "offline") none
        (.json ⟨some "success", "T123", .undefined⟩)).registrationForm
    ∧ "hidden" ∈ noOptionPage.successContainer
    ∧ "hidden" ∉ (completeRegistration noOptionPage (collect noOptionPage "offline") none
        (.json ⟨some "success", "T123", .undefined⟩)).successContainer
    ∧ (completeRegistration noOptionPage (collect noOptionPage "offline") none
        (.json ⟨some "success", "T123", .undefined⟩)).registrationID = "T123"
    ∧ (completeRegistration noOptionPage (collect noOptionPage "offline") none
        (.json ⟨some "success", "T123", .undefined⟩)).qrcode = [⟨"T123", 160, 160⟩]
    ∧ ¬ FormUntouched noOptionPage
        (completeRegistration noOptionPage (collect noOptionPage "offline") none
          (.json ⟨some "success", "T123", .undefined⟩)) := by
  refine ⟨⟨_, rfl⟩, by decide, by decide, by decide, by decide, by decide, by decide,
    by decide, ?_⟩
  intro h
  exact absurd h.1 (by decide)

end Infest
